import Mathlib

/-!
# Interactive scene viewer (`main2.js`): responsive scale, pick registry, popup controller

A shallow embedding of the event handlers of `src/main2.js`.

Modelling conventions.
* JavaScript numbers are exact rationals (`ℚ`); the constants `0.25`, `1`, `5`, `1000`
  of the source are the rationals `1/4`, `1`, `5`, `1000`. The program computes in
  binary64, so the results on `animate` are stated in forms that rounding does not
  affect; `lerp64` below evaluates the interpolation with binary64 rounding and records
  where the two arithmetics part (`lerp64_rounding`).
* The module-level variables of the script (`pointer`, `raycastObjects`, `modelMesh`,
  `targetScale`), the window size read through `window.innerWidth` / `window.innerHeight`
  and the DOM properties written by the handlers (`popup.style.display`, the text of the
  popup paragraph, `document.body.style.cursor`) are the fields of one explicit `State`.
* `modelMesh` is `undefined` until the load callback runs: it is an `Option`, holding the
  model's `scale` vector once loaded.
* The library ray cast (`raycaster.setFromCamera` followed by
  `raycaster.intersectObjects`) is a parameter of the handlers: a function from the pointer
  and the registry to the list of intersections.
* `THREE.MathUtils.lerp` is the library function `(1 - t) * x + t * y`.
* Strings are compared and searched character by character; `toLowerCase` is the
  per-character lower-casing of `Char.toLower`.
-/

namespace Main2

/-! ## Data model -/

/-- The two components of `THREE.Vector2` used by the script. -/
structure Vector2 where
  x : ℚ
  y : ℚ
  deriving DecidableEq, Repr

/-- The three components of `THREE.Vector3` (here: the `scale` of the model). -/
structure Vector3 where
  x : ℚ
  y : ℚ
  z : ℚ
  deriving DecidableEq, Repr

/-- `Vector3.set(x, y, z)`: overwrite the three components. -/
def Vector3.set (_v : Vector3) (x y z : ℚ) : Vector3 := ⟨x, y, z⟩

/-- A node of the loaded scene graph, as far as the traversal callback reads it. -/
structure Object3D where
  isMesh : Bool
  name : String
  deriving DecidableEq, Repr

/-- One entry of the array returned by `raycaster.intersectObjects`. -/
structure Intersection where
  distance : ℚ
  object : Object3D
  deriving DecidableEq, Repr

/-- The fields of a mouse event read by the handlers. -/
structure MouseEvent where
  clientX : ℚ
  clientY : ℚ
  deriving DecidableEq, Repr

/-- The library ray cast: pointer (already normalised) and registry to intersections. -/
abbrev Raycaster := Vector2 → List Object3D → List Intersection

/-- Module state of the script together with the DOM properties it reads and writes. -/
structure State where
  innerWidth : ℚ
  innerHeight : ℚ
  pointer : Vector2
  raycastObjects : List Object3D
  modelMesh : Option Vector3
  targetScale : ℚ
  popupDisplay : String
  popupText : String
  cursor : String
  deriving DecidableEq, Repr

/-- The state right after the script's top level has run in a window of the given size:
`targetScale = 1`, empty registry, no model, popup with its markup text and no inline
`display` (the injected style sheet gives `#popup-overlay` the value `display: none`). -/
def State.init (w h : ℚ) : State :=
  { innerWidth := w
    innerHeight := h
    pointer := ⟨0, 0⟩
    raycastObjects := []
    modelMesh := none
    targetScale := 1
    popupDisplay := ""
    popupText := "This is a popup message triggered by clicking a sign object!"
    cursor := "" }

/-- The popup overlay is visible exactly when its inline `display` is `"flex"`: the only
other values it ever has are the empty initial one (style sheet: `display: none`) and
`"none"`. -/
def State.popupShown (st : State) : Prop := st.popupDisplay = "flex"

instance (st : State) : Decidable st.popupShown := by
  unfold State.popupShown; infer_instance

/-! ## Viewport resize policy (`updateTargetScale`, the `resize` listener) -/

/-- The function `updateTargetScale` of the script. -/
def updateTargetScale (st : State) : State :=
  { st with targetScale := if st.innerWidth < 1000 then 1 / 4 else 1 }

/-- The `resize` listener, run after the window took the size `w` by `h`; the camera and
renderer updates do not touch the modelled state. -/
def resizeHandler (w h : ℚ) (st : State) : State :=
  updateTargetScale { st with innerWidth := w, innerHeight := h }

/-! ## Scale animator (`animate`) -/

/-- The library function `THREE.MathUtils.lerp`. -/
def lerp (x y t : ℚ) : ℚ := (1 - t) * x + t * y

/-- Clamp to the unit interval, as the specification's `clamp01`. -/
def clamp01 (t : ℚ) : ℚ := max 0 (min 1 t)

/-- One frame of `animate`, with `delta` the value returned by `clock.getDelta()`. -/
def animate (delta : ℚ) (st : State) : State :=
  match st.modelMesh with
  | none => st
  | some scale =>
    let currentScale := scale.x
    let lerpSpeed : ℚ := 5
    let newScale := lerp currentScale st.targetScale (delta * lerpSpeed)
    { st with modelMesh := some (scale.set newScale newScale newScale) }

/-! ## Binary64 evaluation of the interpolation -/

/-- A non-negative dyadic number `num / 2 ^ scale`; every non-negative finite binary64
value is one. -/
structure Dyadic where
  num : ℕ
  scale : ℕ
  deriving Repr

/-- The rational a dyadic stands for. -/
def Dyadic.toRat (a : Dyadic) : ℚ := (a.num : ℚ) / 2 ^ a.scale

/-- Two dyadics stand for the same number. -/
def Dyadic.same (a b : Dyadic) : Bool := a.num * 2 ^ b.scale == b.num * 2 ^ a.scale

/-- The first dyadic stands for a smaller number than the second. -/
def Dyadic.lt (a b : Dyadic) : Bool := decide (a.num * 2 ^ b.scale < b.num * 2 ^ a.scale)

/-- Round `n / d` to the nearest integer, a tie to the even one. -/
def roundHalfEven (n d : ℕ) : ℕ :=
  let k := n / d
  let r := n % d
  if 2 * r < d then k else if d < 2 * r then k + 1 else if k % 2 = 0 then k else k + 1

/-- The number of low bits `n` has beyond 53, for `n` below `2 ^ (53 + fuel)`. -/
def excessBits : ℕ → ℕ → ℕ
  | 0, _ => 0
  | fuel + 1, n => if n < 2 ^ 53 then 0 else 1 + excessBits fuel (n / 2)

/-- Round to 53 significant bits, to nearest, ties to even: the rounding of binary64 in
its normal range (no underflow, no overflow; numerators below `2 ^ 4149`). -/
def Dyadic.round (a : Dyadic) : Dyadic :=
  let drop := excessBits 4096 a.num
  ⟨roundHalfEven a.num (2 ^ drop) * 2 ^ drop, a.scale⟩

/-- Binary64 product: the exact product, rounded. -/
def Dyadic.mul (a b : Dyadic) : Dyadic := Dyadic.round ⟨a.num * b.num, a.scale + b.scale⟩

/-- Binary64 sum: the exact sum, rounded. -/
def Dyadic.add (a b : Dyadic) : Dyadic :=
  Dyadic.round ⟨a.num * 2 ^ b.scale + b.num * 2 ^ a.scale, a.scale + b.scale⟩

/-- Binary64 difference `a - b` for `b ≤ a`: the exact difference, rounded. -/
def Dyadic.sub (a b : Dyadic) : Dyadic :=
  Dyadic.round ⟨a.num * 2 ^ b.scale - b.num * 2 ^ a.scale, a.scale + b.scale⟩

/-- The library function `THREE.MathUtils.lerp`, `(1 - t) * x + t * y`, with each of its
four operations rounded as binary64 does, for `0 ≤ t ≤ 1`. -/
def lerp64 (x y t : Dyadic) : Dyadic :=
  Dyadic.add (Dyadic.mul (Dyadic.sub ⟨1, 0⟩ t) x) (Dyadic.mul t y)

/-- The factor `delta * lerpSpeed` of `animate`, rounded as binary64 does. -/
def factor64 (delta : Dyadic) : Dyadic := Dyadic.mul delta ⟨5, 0⟩

/-! ## Pick target registry (the load-success callback) -/

/-- The method `String.prototype.toLowerCase`, character by character. -/
def toLowerCase (s : List Char) : List Char := s.map Char.toLower

/-- The method `String.prototype.includes`: `sub` occurs in `s` as a contiguous block. -/
def includes : List Char → List Char → Bool
  | [], sub => sub.isPrefixOf []
  | c :: s, sub => sub.isPrefixOf (c :: s) || includes s sub

/-- The callback handed to `mesh.traverse`: push the child when it is a mesh whose
lower-cased name includes `"sign"`. -/
def traverseCallback (raycastObjects : List Object3D) (child : Object3D) : List Object3D :=
  if child.isMesh then
    if includes (toLowerCase child.name.data) "sign".data then
      raycastObjects ++ [child]
    else raycastObjects
  else raycastObjects

/-- The load-success callback: `nodes` is the sequence in which `mesh.traverse` visits the
scene, `scale` the scale of the loaded scene. -/
def onLoad (nodes : List Object3D) (scale : Vector3) (st : State) : State :=
  updateTargetScale
    { st with
      modelMesh := some scale
      raycastObjects := nodes.foldl traverseCallback st.raycastObjects }

/-! ## Interaction controller (`click`, `mousemove`, the close control) -/

/-- The function `showPopup`; its argument is not used by the body. -/
def showPopup (_objectName : String) (st : State) : State :=
  { st with popupText := "YEEEEE idk what to put here", popupDisplay := "flex" }

/-- The `click` listener on `window`. -/
def clickHandler (ray : Raycaster) (e : MouseEvent) (st : State) : State :=
  let st1 : State :=
    { st with
      pointer :=
        { x := (e.clientX / st.innerWidth) * 2 - 1
          y := -(e.clientY / st.innerHeight) * 2 + 1 } }
  let intersects := ray st1.pointer st1.raycastObjects
  match intersects with
  | [] => st1
  | hit :: _ => showPopup hit.object.name st1

/-- The `mousemove` listener on `window`. -/
def mousemoveHandler (ray : Raycaster) (e : MouseEvent) (st : State) : State :=
  let st1 : State :=
    { st with
      pointer :=
        { x := (e.clientX / st.innerWidth) * 2 - 1
          y := -(e.clientY / st.innerHeight) * 2 + 1 } }
  let intersects := ray st1.pointer st1.raycastObjects
  { st1 with cursor := if intersects.length > 0 then "pointer" else "default" }

/-- The `onclick` handler of `#close-popup`. -/
def closePopupOnclick (st : State) : State :=
  { st with popupDisplay := "none" }

/-- A click on `#close-popup`: the element's `onclick` handler runs first, then the event
bubbles to `window`, whose `click` listener runs with the same event. -/
def closeClick (ray : Raycaster) (e : MouseEvent) (st : State) : State :=
  clickHandler ray e (closePopupOnclick st)

/-- The intersections a pointer event `e` yields in state `st`: the ray cast at the
normalised pointer against the registry, the value of `intersects` in both listeners. -/
def pick (ray : Raycaster) (e : MouseEvent) (st : State) : List Intersection :=
  ray ⟨(e.clientX / st.innerWidth) * 2 - 1, -(e.clientY / st.innerHeight) * 2 + 1⟩
    st.raycastObjects

/-! ## Event sequences -/

/-- The events that touch the scale: a resize to a new window size, or one frame. -/
inductive ScaleEvent where
  | resize (w h : ℚ)
  | frame (delta : ℚ)
  deriving DecidableEq, Repr

/-- The handler run by one event. -/
def ScaleEvent.step (st : State) : ScaleEvent → State
  | .resize w h => resizeHandler w h st
  | .frame delta => animate delta st

/-- Run a finite sequence of events, oldest first. -/
def run (evs : List ScaleEvent) (st : State) : State := evs.foldl ScaleEvent.step st

/-- The invariant of the scale: `targetScale` is 0.25 or 1 and the model is loaded with
the first component of its scale in `[0.25, 1]`. -/
def ScaleInv (st : State) : Prop :=
  (st.targetScale = 1 / 4 ∨ st.targetScale = 1) ∧
    ∃ scale : Vector3, st.modelMesh = some scale ∧ 1 / 4 ≤ scale.x ∧ scale.x ≤ 1

/-! ## Concrete states -/

/-- The state right after a model without sign meshes, at scale 1, has loaded in a window
800 pixels wide: `targetScale` is 0.25 and the model is still at scale 1. -/
def loadedNarrow : State := onLoad [] ⟨1, 1, 1⟩ (State.init 800 600)

/-- From `loadedNarrow`: one frame of 0.2 seconds brings the model to scale 0.25, then the
window is resized to 1200 by 800, which puts `targetScale` back to 1. -/
def overshootState : State := run [.frame (1 / 5), .resize 1200 800] loadedNarrow

/-- A scene whose traversal visits three meshes, named as in the end-to-end example. -/
def exampleScene : List Object3D :=
  [⟨true, "Sign_A"⟩, ⟨true, "tree01"⟩, ⟨true, "SIGN_info"⟩]

/-- A scene with one sign mesh. -/
def signScene : List Object3D := [⟨true, "Sign_A"⟩]

/-- A ray cast for a camera that sees every registered object in the middle of the
viewport: a pointer within one half of the centre on both axes hits all of them, at
distance 20, any other pointer hits nothing. -/
def centreSign : Raycaster := fun p objs =>
  if -1 / 2 ≤ p.x ∧ p.x ≤ 1 / 2 ∧ -1 / 2 ≤ p.y ∧ p.y ≤ 1 / 2 then
    objs.map (fun o => ⟨20, o⟩)
  else []

/-- The state after `signScene` has loaded in a 1200 by 800 window and the sign has been
clicked at the centre of the viewport: the popup is open. -/
def popupOpen : State :=
  clickHandler centreSign ⟨600, 400⟩ (onLoad signScene ⟨1, 1, 1⟩ (State.init 1200 800))

/-! ## Viewport resize policy: results -/

/-- C1: for every viewport width, `updateTargetScale` sets `targetScale` to 0.25 exactly
when the width is below 1000 and to 1 exactly when it is not; width 999 gives 0.25 and
width 1000 gives 1. -/
theorem updateTargetScale_policy (st : State) :
    ((updateTargetScale st).targetScale = 1 / 4 ↔ st.innerWidth < 1000) ∧
    ((updateTargetScale st).targetScale = 1 ↔ ¬ st.innerWidth < 1000) ∧
    (updateTargetScale { st with innerWidth := 999 }).targetScale = 1 / 4 ∧
    (updateTargetScale { st with innerWidth := 1000 }).targetScale = 1 := by
  refine ⟨?_, ?_, ?_, ?_⟩
  · by_cases h : st.innerWidth < 1000 <;> simp [updateTargetScale, h]
  · by_cases h : st.innerWidth < 1000 <;> simp [updateTargetScale, h]
  · simp [updateTargetScale]; norm_num
  · simp [updateTargetScale]

/-! ## Scale animator: results -/

theorem animate_modelMesh (delta : ℚ) (st : State) (scale : Vector3)
    (hm : st.modelMesh = some scale) :
    (animate delta st).modelMesh =
      some ⟨lerp scale.x st.targetScale (delta * 5), lerp scale.x st.targetScale (delta * 5),
        lerp scale.x st.targetScale (delta * 5)⟩ := by
  simp [animate, hm, Vector3.set]

theorem animate_targetScale (delta : ℚ) (st : State) :
    (animate delta st).targetScale = st.targetScale := by
  unfold animate
  split <;> rfl

theorem lerp_eq (x y t : ℚ) : lerp x y t = x + t * (y - x) := by
  unfold lerp; ring

theorem clamp01_of_unit (t : ℚ) (h0 : 0 ≤ t) (h1 : t ≤ 1) : clamp01 t = t := by
  unfold clamp01
  rw [min_eq_right h1, max_eq_right h0]

theorem clamp01_of_one_le (t : ℚ) (h1 : 1 ≤ t) : clamp01 t = 1 := by
  unfold clamp01
  rw [min_eq_left h1]
  exact max_eq_right zero_le_one

/-- C2 (as stated, refuted): a model at scale 0.25 with target scale 1, a state reached by
loading in an 800 pixel wide window, one frame of 0.2 seconds and a resize to 1200
pixels; a frame with `deltaSeconds = 1` writes the scale 4, above the target. -/
theorem animate_overshoot_counterexample :
    overshootState.modelMesh = some ⟨1 / 4, 1 / 4, 1 / 4⟩ ∧
    overshootState.targetScale = 1 ∧
    (animate 1 overshootState).modelMesh = some ⟨4, 4, 4⟩ ∧
    ¬ ((1 / 4 : ℚ) < 4 ∧ (4 : ℚ) ≤ overshootState.targetScale) := by
  have h : overshootState.modelMesh = some ⟨1 / 4, 1 / 4, 1 / 4⟩ ∧
      overshootState.targetScale = 1 := by
    simp [overshootState, loadedNarrow, run, ScaleEvent.step, resizeHandler, onLoad,
      updateTargetScale, animate, lerp, Vector3.set, State.init]
    norm_num
  refine ⟨h.1, h.2, ?_, ?_⟩
  · rw [animate_modelMesh 1 overshootState _ h.1, h.2]
    simp [lerp]
    norm_num
  · rw [h.2]; norm_num

/-- C2 (amended): with the model loaded, `targetScale > currentScale` and
`0 < deltaSeconds ≤ 0.2`, one frame of `animate` writes
`newScale = lerp(currentScale, targetScale, deltaSeconds * 5)` to all three components,
and `newScale ≤ targetScale`: no overshoot. -/
theorem animate_no_overshoot (st : State) (scale : Vector3) (delta : ℚ)
    (hm : st.modelMesh = some scale) (hlt : scale.x < st.targetScale) (_hd : 0 < delta)
    (hle : delta ≤ 1 / 5) :
    ∃ newScale : ℚ,
      (animate delta st).modelMesh = some ⟨newScale, newScale, newScale⟩ ∧
      newScale = lerp scale.x st.targetScale (delta * 5) ∧
      newScale ≤ st.targetScale := by
  refine ⟨_, animate_modelMesh delta st scale hm, rfl, ?_⟩
  rw [lerp_eq]
  have hpos : 0 < st.targetScale - scale.x := sub_pos.mpr hlt
  have h5 : delta * 5 ≤ 1 := by linarith
  have h2 : delta * 5 * (st.targetScale - scale.x) ≤ 1 * (st.targetScale - scale.x) :=
    mul_le_mul_of_nonneg_right h5 hpos.le
  linarith

theorem animate_no_overshoot_witness :
    ∃ newScale : ℚ,
      (animate (1 / 10) overshootState).modelMesh = some ⟨newScale, newScale, newScale⟩ ∧
      newScale = lerp (1 / 4) overshootState.targetScale (1 / 10 * 5) ∧
      newScale ≤ overshootState.targetScale :=
  animate_no_overshoot overshootState ⟨1 / 4, 1 / 4, 1 / 4⟩ (1 / 10)
    (by
      simp [overshootState, loadedNarrow, run, ScaleEvent.step, resizeHandler, onLoad,
        updateTargetScale, animate, lerp, Vector3.set, State.init]
      norm_num)
    (by
      simp [overshootState, loadedNarrow, run, ScaleEvent.step, resizeHandler, onLoad,
        updateTargetScale, animate, lerp, Vector3.set, State.init]
      norm_num)
    (by norm_num)
    (by norm_num)

/-- C3 (as stated, refuted): right after loading in an 800 pixel wide window the model is
at scale 1 and the target is 0.25; a frame with `deltaSeconds = 1` writes
`lerp(1, 0.25, 5) = -2.75`, whereas the clamped factor would give
`lerp(1, 0.25, clamp01(5)) = 0.25`. -/
theorem animate_unclamped_counterexample :
    loadedNarrow.modelMesh = some ⟨1, 1, 1⟩ ∧
    loadedNarrow.targetScale = 1 / 4 ∧
    (animate 1 loadedNarrow).modelMesh = some ⟨-11 / 4, -11 / 4, -11 / 4⟩ ∧
    lerp 1 loadedNarrow.targetScale (clamp01 (1 * 5)) = 1 / 4 ∧
    (-11 / 4 : ℚ) ≠ lerp 1 loadedNarrow.targetScale (clamp01 (1 * 5)) := by
  have h : loadedNarrow.modelMesh = some ⟨1, 1, 1⟩ ∧ loadedNarrow.targetScale = 1 / 4 := by
    simp [loadedNarrow, onLoad, updateTargetScale, State.init]
    norm_num
  have hc : clamp01 (1 * 5) = 1 := clamp01_of_one_le _ (by norm_num)
  refine ⟨h.1, h.2, ?_, ?_, ?_⟩
  · rw [animate_modelMesh 1 loadedNarrow _ h.1, h.2]
    simp [lerp]
    norm_num
  · rw [hc, h.2]; simp [lerp]
  · rw [hc, h.2]; simp [lerp]; norm_num

/-- C3 (amended): with the model loaded and `deltaSeconds ≥ 0`, one frame of `animate`
writes `lerp(currentScale, targetScale, deltaSeconds * 5)`, the factor passed as it is,
to all three components; when `deltaSeconds ≤ 0.2` the factor is its own `clamp01`, and
when `deltaSeconds ≤ 0.2` or `currentScale = targetScale` the scale written equals
`lerp(currentScale, targetScale, clamp01(deltaSeconds * 5))`. -/
theorem animate_writes_unclamped_lerp (st : State) (scale : Vector3) (delta : ℚ)
    (hm : st.modelMesh = some scale) (hd : 0 ≤ delta) :
    ∃ newScale : ℚ,
      (animate delta st).modelMesh = some ⟨newScale, newScale, newScale⟩ ∧
      newScale = lerp scale.x st.targetScale (delta * 5) ∧
      (delta ≤ 1 / 5 → clamp01 (delta * 5) = delta * 5) ∧
      ((delta ≤ 1 / 5 ∨ scale.x = st.targetScale) →
        newScale = lerp scale.x st.targetScale (clamp01 (delta * 5))) := by
  have hunit : delta ≤ 1 / 5 → clamp01 (delta * 5) = delta * 5 := fun hle =>
    clamp01_of_unit (delta * 5) (by linarith) (by linarith)
  refine ⟨_, animate_modelMesh delta st scale hm, rfl, hunit, ?_⟩
  rintro (hle | heq)
  · rw [hunit hle]
  · rw [lerp_eq, lerp_eq, heq]
    simp

theorem animate_writes_unclamped_lerp_witness :
    ∃ newScale : ℚ,
      (animate (1 / 10) loadedNarrow).modelMesh = some ⟨newScale, newScale, newScale⟩ ∧
      newScale = lerp 1 loadedNarrow.targetScale (1 / 10 * 5) ∧
      ((1 / 10 : ℚ) ≤ 1 / 5 → clamp01 (1 / 10 * 5) = 1 / 10 * 5) ∧
      (((1 / 10 : ℚ) ≤ 1 / 5 ∨ (1 : ℚ) = loadedNarrow.targetScale) →
        newScale = lerp 1 loadedNarrow.targetScale (clamp01 (1 / 10 * 5))) :=
  animate_writes_unclamped_lerp loadedNarrow ⟨1, 1, 1⟩ (1 / 10)
    (by simp [loadedNarrow, onLoad, updateTargetScale, State.init])
    (by norm_num)

set_option maxRecDepth 8000 in
/-- Binary64 rounding on a run of the animator. From scale 1 and target 0.25 a frame of
0.2 seconds (factor exactly 1) writes 0.25; with the target back at 1, a frame of
0.19999999999999998 seconds writes `1 - 2^-53`; from there a frame of 0.06 seconds writes
`1 - 2^-52`, which is smaller, although the target is larger and exact arithmetic gives
an increase. At scale `1 - 5 * 2^-53` and target 1 a frame of 1/60 second writes the scale
it read. -/
theorem lerp64_rounding :
    Dyadic.same (factor64 ⟨3602879701896397, 54⟩) ⟨1, 0⟩ = true ∧
    Dyadic.same (lerp64 ⟨1, 0⟩ ⟨1, 2⟩ (factor64 ⟨3602879701896397, 54⟩)) ⟨1, 2⟩ = true ∧
    Dyadic.same (lerp64 ⟨1, 2⟩ ⟨1, 0⟩ (factor64 ⟨7205759403792793, 55⟩))
      ⟨2 ^ 53 - 1, 53⟩ = true ∧
    Dyadic.same (lerp64 ⟨2 ^ 53 - 1, 53⟩ ⟨1, 0⟩ (factor64 ⟨1080863910568919, 54⟩))
      ⟨2 ^ 52 - 1, 52⟩ = true ∧
    Dyadic.lt (lerp64 ⟨2 ^ 53 - 1, 53⟩ ⟨1, 0⟩ (factor64 ⟨1080863910568919, 54⟩))
      ⟨2 ^ 53 - 1, 53⟩ = true ∧
    Dyadic.same (lerp64 ⟨2 ^ 53 - 5, 53⟩ ⟨1, 0⟩ (factor64 ⟨4803839602528529, 58⟩))
      ⟨2 ^ 53 - 5, 53⟩ = true := by
  decide

theorem lerp_exact_increase :
    Dyadic.toRat ⟨2 ^ 53 - 1, 53⟩ <
      lerp (Dyadic.toRat ⟨2 ^ 53 - 1, 53⟩) 1 (Dyadic.toRat ⟨1080863910568919, 54⟩ * 5) := by
  simp only [Dyadic.toRat, lerp]
  norm_num

/-- C4: if the model is loaded and `currentScale = targetScale = s`, then for every
`deltaSeconds ≥ 0` the frame of `animate` writes `s` again, to all three components, and
leaves `targetScale` at `s`. -/
theorem animate_fixed_point (st : State) (scale : Vector3) (s delta : ℚ)
    (hm : st.modelMesh = some scale) (hc : scale.x = s) (ht : st.targetScale = s)
    (_hd : 0 ≤ delta) :
    (animate delta st).modelMesh = some ⟨s, s, s⟩ ∧ (animate delta st).targetScale = s := by
  refine ⟨?_, by rw [animate_targetScale, ht]⟩
  rw [animate_modelMesh delta st scale hm, hc, ht, lerp_eq]
  simp

theorem animate_fixed_point_witness :
    (animate 3 (onLoad [] ⟨1, 1, 1⟩ (State.init 1200 800))).modelMesh = some ⟨1, 1, 1⟩ ∧
    (animate 3 (onLoad [] ⟨1, 1, 1⟩ (State.init 1200 800))).targetScale = 1 :=
  animate_fixed_point (onLoad [] ⟨1, 1, 1⟩ (State.init 1200 800)) ⟨1, 1, 1⟩ 1 3
    (by simp [onLoad, updateTargetScale])
    rfl
    (by simp [onLoad, updateTargetScale, State.init]; norm_num)
    (by norm_num)

/-! ## Pick target registry: results -/

theorem includes_iff_infix (s sub : List Char) : includes s sub = true ↔ sub <:+: s := by
  induction s with
  | nil =>
    cases sub <;> simp [includes, List.isPrefixOf]
  | cons c s ih =>
    simp only [includes, Bool.or_eq_true, ih, List.isPrefixOf_iff_prefix,
      List.infix_cons_iff]

theorem foldl_traverseCallback (nodes acc : List Object3D) :
    nodes.foldl traverseCallback acc =
      acc ++ nodes.filter
        (fun c => c.isMesh && includes (toLowerCase c.name.data) "sign".data) := by
  induction nodes generalizing acc with
  | nil => simp
  | cons c nodes ih =>
    rw [List.foldl_cons, ih]
    by_cases hm : c.isMesh = true
    · by_cases hs : includes (toLowerCase c.name.data) "sign".data = true
      · simp [traverseCallback, hm, hs, List.filter_cons]
      · simp [traverseCallback, hm, hs, List.filter_cons]
    · simp [traverseCallback, hm, List.filter_cons]

/-- C5: the load-success callback appends to `raycastObjects`, in traversal order, exactly
the visited nodes that are meshes and whose lower-cased name has `"sign"` as a contiguous
substring; starting from the empty registry of the initial state the registry is that
subsequence, and meshes named `Sign_A`, `tree01`, `SIGN_info` yield `Sign_A`, `SIGN_info`. -/
theorem registry_is_sign_meshes (nodes : List Object3D) (scale : Vector3) (st : State)
    (w h : ℚ) :
    (onLoad nodes scale st).raycastObjects =
      st.raycastObjects ++ nodes.filter
        (fun c => c.isMesh && includes (toLowerCase c.name.data) "sign".data) ∧
    (onLoad nodes scale (State.init w h)).raycastObjects =
      nodes.filter (fun c => c.isMesh && includes (toLowerCase c.name.data) "sign".data) ∧
    (∀ c : Object3D,
      (c.isMesh && includes (toLowerCase c.name.data) "sign".data) = true ↔
        (c.isMesh = true ∧ "sign".data <:+: c.name.data.map Char.toLower)) ∧
    (onLoad exampleScene scale (State.init w h)).raycastObjects =
      [⟨true, "Sign_A"⟩, ⟨true, "SIGN_info"⟩] := by
  have key : ∀ (ns : List Object3D) (s0 : State),
      (onLoad ns scale s0).raycastObjects =
        s0.raycastObjects ++ ns.filter
          (fun c => c.isMesh && includes (toLowerCase c.name.data) "sign".data) := by
    intro ns s0
    simp only [onLoad, updateTargetScale]
    exact foldl_traverseCallback ns s0.raycastObjects
  refine ⟨key nodes st, ?_, ?_, ?_⟩
  · rw [key]; simp [State.init]
  · intro c
    rw [Bool.and_eq_true, includes_iff_infix]
    rfl
  · rw [key]
    simp only [State.init, List.nil_append]
    decide

/-! ## Interaction controller: results -/

theorem clickHandler_eq (ray : Raycaster) (e : MouseEvent) (st : State) :
    clickHandler ray e st =
      match pick ray e st with
      | [] =>
        { st with
          pointer :=
            ⟨(e.clientX / st.innerWidth) * 2 - 1, -(e.clientY / st.innerHeight) * 2 + 1⟩ }
      | hit :: _ =>
        showPopup hit.object.name
          { st with
            pointer :=
              ⟨(e.clientX / st.innerWidth) * 2 - 1,
                -(e.clientY / st.innerHeight) * 2 + 1⟩ } := rfl

theorem clickHandler_pointer (ray : Raycaster) (e : MouseEvent) (st : State) :
    (clickHandler ray e st).pointer =
      ⟨(e.clientX / st.innerWidth) * 2 - 1, -(e.clientY / st.innerHeight) * 2 + 1⟩ := by
  rw [clickHandler_eq]
  cases pick ray e st <;> rfl

theorem mousemoveHandler_pointer (ray : Raycaster) (e : MouseEvent) (st : State) :
    (mousemoveHandler ray e st).pointer =
      ⟨(e.clientX / st.innerWidth) * 2 - 1, -(e.clientY / st.innerHeight) * 2 + 1⟩ := rfl

theorem clickHandler_popupDisplay (ray : Raycaster) (e : MouseEvent) (st : State) :
    (clickHandler ray e st).popupDisplay =
      (if (pick ray e st).length > 0 then "flex" else st.popupDisplay) := by
  rw [clickHandler_eq]
  cases hp : pick ray e st with
  | nil => simp
  | cons hit rest => simp [showPopup]

theorem clickHandler_popupText (ray : Raycaster) (e : MouseEvent) (st : State) :
    (clickHandler ray e st).popupText =
      (if (pick ray e st).length > 0 then "YEEEEE idk what to put here"
        else st.popupText) := by
  rw [clickHandler_eq]
  cases hp : pick ray e st with
  | nil => simp
  | cons hit rest => simp [showPopup]

theorem clickHandler_popupShown_iff (ray : Raycaster) (e : MouseEvent) (st : State) :
    (clickHandler ray e st).popupShown ↔ ((pick ray e st).length > 0 ∨ st.popupShown) := by
  unfold State.popupShown
  rw [clickHandler_popupDisplay]
  by_cases h : (pick ray e st).length > 0
  · simp [h]
  · simp [h]

/-- C6: after the `click` listener the popup `display` is `"flex"` if the pick resolved to
at least one object and is what it was before otherwise, and likewise the popup text is
the fixed placeholder or unchanged; so the popup is shown afterwards exactly when the
pick hit or it was shown before, and a miss from the hidden state stays hidden. -/
theorem click_transition (ray : Raycaster) (e : MouseEvent) (st : State) :
    (clickHandler ray e st).popupDisplay =
      (if (pick ray e st).length > 0 then "flex" else st.popupDisplay) ∧
    (clickHandler ray e st).popupText =
      (if (pick ray e st).length > 0 then "YEEEEE idk what to put here"
        else st.popupText) ∧
    ((clickHandler ray e st).popupShown ↔ ((pick ray e st).length > 0 ∨ st.popupShown)) := by
  exact ⟨clickHandler_popupDisplay ray e st, clickHandler_popupText ray e st,
    clickHandler_popupShown_iff ray e st⟩

/-- C8: after the `mousemove` listener the cursor style is `"pointer"` if the pick
resolved to at least one object and `"default"` otherwise, and the popup `display`, the
popup text, `targetScale`, the registry and the model are what they were before. -/
theorem mousemove_cursor_only (ray : Raycaster) (e : MouseEvent) (st : State) :
    (mousemoveHandler ray e st).cursor =
      (if (pick ray e st).length > 0 then "pointer" else "default") ∧
    ((mousemoveHandler ray e st).cursor = "pointer" ↔ (pick ray e st).length > 0) ∧
    ((mousemoveHandler ray e st).cursor = "default" ↔ (pick ray e st).length = 0) ∧
    (mousemoveHandler ray e st).popupDisplay = st.popupDisplay ∧
    (mousemoveHandler ray e st).popupText = st.popupText ∧
    (mousemoveHandler ray e st).targetScale = st.targetScale ∧
    (mousemoveHandler ray e st).raycastObjects = st.raycastObjects ∧
    (mousemoveHandler ray e st).modelMesh = st.modelMesh := by
  have hc : (mousemoveHandler ray e st).cursor =
      (if (pick ray e st).length > 0 then "pointer" else "default") := rfl
  refine ⟨hc, ?_, ?_, rfl, rfl, rfl, rfl, rfl⟩
  · rw [hc]
    by_cases h : (pick ray e st).length > 0
    · simp [h]
    · simp [h]
  · rw [hc]
    by_cases h : (pick ray e st).length > 0
    · have hne : (pick ray e st).length ≠ 0 := by omega
      simp [h, hne]
    · have h0 : (pick ray e st).length = 0 := by omega
      simp [h0]

theorem closeClick_popupShown_iff (ray : Raycaster) (e : MouseEvent) (st : State) :
    (closeClick ray e st).popupShown ↔ (pick ray e (closePopupOnclick st)).length > 0 := by
  unfold closeClick
  rw [clickHandler_popupShown_iff]
  simp [State.popupShown, closePopupOnclick]

/-- C7 (the code departs from the claim): with the popup open over a registered sign
that the camera shows in the middle of the viewport, a click on `#close-popup` at client
position (780, 340) first sets `display` to `"none"` in the `onclick` handler, then
reaches the `click` listener of `window`, whose pick hits the sign and which shows the
popup again: after both handlers the popup is shown, not hidden. -/
theorem closeClick_reopens_popup :
    popupOpen.popupShown ∧
    (closePopupOnclick popupOpen).popupDisplay = "none" ∧
    (pick centreSign ⟨780, 340⟩ (closePopupOnclick popupOpen)).length = 1 ∧
    (closeClick centreSign ⟨780, 340⟩ popupOpen).popupDisplay = "flex" ∧
    (closeClick centreSign ⟨780, 340⟩ popupOpen).popupShown := by
  have hload :
      (onLoad signScene ⟨1, 1, 1⟩ (State.init 1200 800)).raycastObjects = signScene := by
    rw [onLoad, updateTargetScale]
    simp only [State.init]
    decide
  have hreg : popupOpen.raycastObjects = signScene := by
    unfold popupOpen
    rw [clickHandler_eq]
    cases pick centreSign ⟨600, 400⟩ (onLoad signScene ⟨1, 1, 1⟩ (State.init 1200 800))
      <;> simpa [showPopup] using hload
  have hw : popupOpen.innerWidth = 1200 ∧ popupOpen.innerHeight = 800 := by
    unfold popupOpen
    rw [clickHandler_eq]
    cases pick centreSign ⟨600, 400⟩ (onLoad signScene ⟨1, 1, 1⟩ (State.init 1200 800))
      <;> simp [showPopup, onLoad, updateTargetScale, State.init]
  have hopen : popupOpen.popupShown := by
    unfold popupOpen
    rw [clickHandler_popupShown_iff]
    left
    unfold pick
    rw [hload]
    simp [centreSign, onLoad, updateTargetScale, State.init, signScene]
    norm_num
  have hpick : (pick centreSign ⟨780, 340⟩ (closePopupOnclick popupOpen)).length = 1 := by
    simp [pick, centreSign, closePopupOnclick, hreg, hw.1, hw.2, signScene]
    norm_num
  refine ⟨hopen, rfl, hpick, ?_, ?_⟩
  · unfold closeClick
    rw [clickHandler_popupDisplay, hpick]
    simp
  · rw [closeClick_popupShown_iff, hpick]
    norm_num

/-- C9: in a window of width `W > 0` and height `H > 0` both pointer listeners store
`pointer.x = (clientX / W) * 2 - 1` and `pointer.y = -(clientY / H) * 2 + 1`; for
`0 ≤ clientX ≤ W` and `0 ≤ clientY ≤ H` both lie in `[-1, 1]`, `pointer.x` is strictly
increasing in `clientX`, `pointer.y` strictly decreasing in `clientY`, the top-left corner
maps to `(-1, 1)` and the bottom-right corner to `(1, -1)`. -/
theorem pointer_normalised (ray : Raycaster) (st : State)
    (hW : 0 < st.innerWidth) (hH : 0 < st.innerHeight) :
    (∀ e : MouseEvent,
      (clickHandler ray e st).pointer =
        ⟨(e.clientX / st.innerWidth) * 2 - 1, -(e.clientY / st.innerHeight) * 2 + 1⟩ ∧
      (mousemoveHandler ray e st).pointer = (clickHandler ray e st).pointer) ∧
    (∀ e : MouseEvent, 0 ≤ e.clientX → e.clientX ≤ st.innerWidth →
      0 ≤ e.clientY → e.clientY ≤ st.innerHeight →
      -1 ≤ (clickHandler ray e st).pointer.x ∧ (clickHandler ray e st).pointer.x ≤ 1 ∧
      -1 ≤ (clickHandler ray e st).pointer.y ∧ (clickHandler ray e st).pointer.y ≤ 1) ∧
    (∀ e₁ e₂ : MouseEvent, e₁.clientX < e₂.clientX →
      (clickHandler ray e₁ st).pointer.x < (clickHandler ray e₂ st).pointer.x) ∧
    (∀ e₁ e₂ : MouseEvent, e₁.clientY < e₂.clientY →
      (clickHandler ray e₂ st).pointer.y < (clickHandler ray e₁ st).pointer.y) ∧
    (clickHandler ray ⟨0, 0⟩ st).pointer = ⟨-1, 1⟩ ∧
    (clickHandler ray ⟨st.innerWidth, st.innerHeight⟩ st).pointer = ⟨1, -1⟩ := by
  refine ⟨?_, ?_, ?_, ?_, ?_, ?_⟩
  · intro e
    rw [clickHandler_pointer, mousemoveHandler_pointer]
    exact ⟨rfl, rfl⟩
  · intro e hx0 hx1 hy0 hy1
    rw [clickHandler_pointer]
    have hx : 0 ≤ e.clientX / st.innerWidth := div_nonneg hx0 hW.le
    have hx' : e.clientX / st.innerWidth ≤ 1 := (div_le_one hW).mpr hx1
    have hy : 0 ≤ e.clientY / st.innerHeight := div_nonneg hy0 hH.le
    have hy' : e.clientY / st.innerHeight ≤ 1 := (div_le_one hH).mpr hy1
    refine ⟨?_, ?_, ?_, ?_⟩ <;> simp only <;> linarith
  · intro e₁ e₂ hlt
    rw [clickHandler_pointer, clickHandler_pointer]
    have : e₁.clientX / st.innerWidth < e₂.clientX / st.innerWidth :=
      div_lt_div_of_pos_right hlt hW
    simp only
    linarith
  · intro e₁ e₂ hlt
    rw [clickHandler_pointer, clickHandler_pointer]
    have : e₁.clientY / st.innerHeight < e₂.clientY / st.innerHeight :=
      div_lt_div_of_pos_right hlt hH
    simp only
    linarith
  · rw [clickHandler_pointer]
    simp
  · rw [clickHandler_pointer]
    simp [div_self hW.ne.symm, div_self hH.ne.symm]
    norm_num

theorem pointer_normalised_witness :
    (0 : ℚ) < (State.init 1200 800).innerWidth ∧
    (0 : ℚ) < (State.init 1200 800).innerHeight ∧
    (clickHandler centreSign ⟨0, 0⟩ (State.init 1200 800)).pointer = ⟨-1, 1⟩ ∧
    (clickHandler centreSign
      ⟨(State.init 1200 800).innerWidth, (State.init 1200 800).innerHeight⟩
      (State.init 1200 800)).pointer = ⟨1, -1⟩ :=
  ⟨by norm_num [State.init], by norm_num [State.init],
    (pointer_normalised centreSign (State.init 1200 800)
      (by norm_num [State.init]) (by norm_num [State.init])).2.2.2.2⟩

/-! ## Reachable states of the scale -/

theorem updateTargetScale_targetScale (st : State) :
    (updateTargetScale st).targetScale = 1 / 4 ∨ (updateTargetScale st).targetScale = 1 := by
  by_cases h : st.innerWidth < 1000
  · left; simp [updateTargetScale, h]
  · right; simp [updateTargetScale, h]

theorem onLoad_scaleInv (nodes : List Object3D) (scale : Vector3) (st : State)
    (h0 : 1 / 4 ≤ scale.x) (h1 : scale.x ≤ 1) : ScaleInv (onLoad nodes scale st) :=
  ⟨updateTargetScale_targetScale _, scale, rfl, h0, h1⟩

theorem resizeHandler_scaleInv (w h : ℚ) (st : State) (hi : ScaleInv st) :
    ScaleInv (resizeHandler w h st) :=
  ⟨updateTargetScale_targetScale _, hi.2⟩

theorem animate_scaleInv (delta : ℚ) (st : State) (hi : ScaleInv st)
    (h0 : 0 ≤ delta) (h1 : delta ≤ 1 / 5) : ScaleInv (animate delta st) := by
  obtain ⟨ht, scale, hm, hlo, hhi⟩ := hi
  refine ⟨by rw [animate_targetScale]; exact ht, _, animate_modelMesh delta st scale hm, ?_⟩
  have ha0 : 0 ≤ delta * 5 := by linarith
  have ha1 : 0 ≤ 1 - delta * 5 := by linarith
  have hx0 : 0 ≤ scale.x - 1 / 4 := by linarith
  have hx1 : 0 ≤ 1 - scale.x := by linarith
  have p0 := mul_nonneg ha1 hx0
  have p1 := mul_nonneg ha1 hx1
  simp only [lerp]
  rcases ht with ht | ht <;> rw [ht] <;> constructor <;> nlinarith

theorem run_scaleInv (evs : List ScaleEvent) (st : State) (hi : ScaleInv st)
    (hf : ∀ delta : ℚ, ScaleEvent.frame delta ∈ evs → 0 ≤ delta ∧ delta ≤ 1 / 5) :
    ScaleInv (run evs st) := by
  induction evs generalizing st with
  | nil => exact hi
  | cons ev evs ih =>
    have hstep : ScaleInv (ScaleEvent.step st ev) := by
      cases ev with
      | resize w h => exact resizeHandler_scaleInv w h st hi
      | frame delta =>
        have hb := hf delta (List.mem_cons_self _ _)
        exact animate_scaleInv delta st hi hb.1 hb.2
    exact ih _ hstep (fun delta hmem => hf delta (List.mem_cons_of_mem _ hmem))

/-- C10: if the model has its scale in `[0.25, 1]` when the load callback runs, then after
every finite sequence of resize events (any window size) and frames of `animate` with
`0 ≤ deltaSeconds ≤ 0.2`, `targetScale` is 0.25 or 1 and the model is loaded with its
scale in `[0.25, 1]`, hence positive. -/
theorem scale_stays_in_range (nodes : List Object3D) (scale : Vector3) (st : State)
    (evs : List ScaleEvent) (h0 : 1 / 4 ≤ scale.x) (h1 : scale.x ≤ 1)
    (hf : ∀ delta : ℚ, ScaleEvent.frame delta ∈ evs → 0 ≤ delta ∧ delta ≤ 1 / 5) :
    ((run evs (onLoad nodes scale st)).targetScale = 1 / 4 ∨
      (run evs (onLoad nodes scale st)).targetScale = 1) ∧
    ∃ s : Vector3, (run evs (onLoad nodes scale st)).modelMesh = some s ∧
      1 / 4 ≤ s.x ∧ s.x ≤ 1 ∧ 0 < s.x := by
  obtain ⟨ht, s, hm, hlo, hhi⟩ := run_scaleInv evs _ (onLoad_scaleInv nodes scale st h0 h1) hf
  exact ⟨ht, s, hm, hlo, hhi, by linarith⟩

theorem scale_stays_in_range_witness :
    ((run [.frame (1 / 5), .resize 1200 800, .frame (1 / 10)]
        (onLoad exampleScene ⟨1, 1, 1⟩ (State.init 800 600))).targetScale = 1 / 4 ∨
      (run [.frame (1 / 5), .resize 1200 800, .frame (1 / 10)]
        (onLoad exampleScene ⟨1, 1, 1⟩ (State.init 800 600))).targetScale = 1) ∧
    ∃ s : Vector3,
      (run [.frame (1 / 5), .resize 1200 800, .frame (1 / 10)]
        (onLoad exampleScene ⟨1, 1, 1⟩ (State.init 800 600))).modelMesh = some s ∧
      1 / 4 ≤ s.x ∧ s.x ≤ 1 ∧ 0 < s.x :=
  scale_stays_in_range exampleScene ⟨1, 1, 1⟩ (State.init 800 600)
    [.frame (1 / 5), .resize 1200 800, .frame (1 / 10)] (by norm_num) (by norm_num)
    (by
      intro delta hmem
      simp only [List.mem_cons, ScaleEvent.frame.injEq, List.mem_singleton,
        List.not_mem_nil, or_false] at hmem
      rcases hmem with h | h | h
      · rw [h]; norm_num
      · exact absurd h (by simp)
      · rw [h]; norm_num)

end Main2
